import Mathlib

/-!
Verification development for the `tera-shortcodes` crate (`src/lib.rs`).

The crate exposes a `Shortcodes` registry of shortcode functions for the Tera
template engine, a `call` dispatcher (the `tera::Function` impl), and the
`fetch_shortcode_js` generator of client-side fetch snippets.  The embedding
below translates those items into Lean; machine values of the template engine
(`tera::Value`, i.e. `serde_json::Value`) become the inductive `Value`, the
`HashMap`s become association lists with HashMap lookup/insert semantics.
-/

namespace TeraShortcodes

/-- Model of `tera::Value` (a re-export of `serde_json::Value`): null, boolean,
number, string, array or object.  Only `as_str` matters to the library: it
yields the payload exactly on the string variant. -/
inductive Value where
  | vNull : Value
  | vBool : Bool → Value
  | vNum : Int → Value
  | vStr : String → Value
  | vArr : List Value → Value
  | vObj : List (String × Value) → Value

/-- Model of `serde_json::Value::as_str`: `Some` exactly on the `String`
variant. -/
def Value.as_str : Value → Option String
  | .vStr s => some s
  | _ => none

/-- Lookup in a `HashMap` modelled as an association list
(`HashMap::get`). -/
def mapLookup {α : Type} : List (String × α) → String → Option α
  | [], _ => none
  | (k, v) :: rest, key => if k = key then some v else mapLookup rest key

/-- Insertion into a `HashMap` modelled as an association list
(`HashMap::insert`): an existing binding of the key is replaced, otherwise the
binding is added. -/
def insertAL {α : Type} (m : List (String × α)) (key : String) (v : α) :
    List (String × α) :=
  match m with
  | [] => [(key, v)]
  | (k, w) :: rest =>
      if k = key then (key, v) :: rest else (k, w) :: insertAL rest key v

/-- The character class trimmed by the dispatcher:
`|c| c == '"' || c == '\x27'` (double or single quote). -/
def isQuoteChar (c : Char) : Bool := c = '"' || c = '\x27'

/-- Model of Rust `str::trim_matches` with a char-predicate pattern: all
leading and all trailing characters satisfying the predicate are removed. -/
def trimMatchesBoth (p : Char → Bool) (l : List Char) : List Char :=
  ((l.dropWhile p).reverse.dropWhile p).reverse

/-- The dispatcher's unquoting step:
`value.as_str().unwrap().trim_matches(|c| c == '"' || c == '\x27')`. -/
def trimQuotes (s : String) : String :=
  String.mk (trimMatchesBoth isQuoteChar s.data)

/-- A registered shortcode function:
`fn(&HashMap<String, tera::Value>) -> String`. -/
def ShortcodeFn : Type := List (String × Value) → String

/-- Model of the `Shortcodes` struct: the registry mapping display names to
shortcode functions (`functions: HashMap<String, fn(..) -> String>`). -/
structure Shortcodes where
  functions : List (String × ShortcodeFn)

/-- `Shortcodes::new`: empty registry. -/
def Shortcodes.new : Shortcodes := ⟨[]⟩

/-- `Shortcodes::register`: consumes the registry and returns it with
`display` bound to `shortcode_fn` (`HashMap::insert`, so a previous binding of
the same name is replaced). -/
def Shortcodes.register (sc : Shortcodes) (display : String)
    (shortcode_fn : ShortcodeFn) : Shortcodes :=
  ⟨insertAL sc.functions display shortcode_fn⟩

/-- Instrumented outcome of one `Shortcodes::call` dispatch: the returned
`Result<tera::Value>` (the source never builds the `Err` variant, so the
error side is a plain `String`), together with the list of files the call
created (the source performs no filesystem operation on any path of `call`,
so every branch records none) and the number of times the registered
shortcode function was applied during the dispatch. -/
structure CallOutcome where
  result : Except String Value
  filesCreated : List String
  invocations : Nat

/-- Model of `Shortcodes::call` (the `tera::Function` impl, src/lib.rs
81-101).  `none` models the panic of `value.as_str().unwrap()` when the
`display` argument is present but not a string; every non-panicking path
returns `Ok`:
missing `display` yields the sentinel `"Missing display attribute"`,
an unregistered display name yields
`"Unknown shortcode display name: <name>"`,
and a registered one yields the function's output.  No branch touches the
filesystem. -/
def Shortcodes.call (sc : Shortcodes) (args : List (String × Value)) :
    Option CallOutcome :=
  match mapLookup args "display" with
  | none => some ⟨.ok (.vStr "Missing display attribute"), [], 0⟩
  | some value =>
      match value.as_str with
      | none => none
      | some s =>
          let display := trimQuotes s
          match mapLookup sc.functions display with
          | none =>
              some ⟨.ok (.vStr ("Unknown shortcode display name: " ++ display)),
                [], 0⟩
          | some shortcode_fn => some ⟨.ok (.vStr (shortcode_fn args)), [], 1⟩

/-- Two successive dispatches of the same argument map, totalling the
shortcode-function invocations.  `call` takes `&self` and the library holds
no other state, so the second dispatch runs against the identical
registry. -/
def dispatchTwiceInvocations (sc : Shortcodes)
    (args : List (String × Value)) : Option Nat :=
  (sc.call args).bind fun o1 =>
    (sc.call args).map fun o2 => o1.invocations + o2.invocations

/-- The operations the crate exposes on a `Shortcodes` value after
construction. -/
inductive Op where
  | register : String → ShortcodeFn → Op
  | call : List (String × Value) → Op

/-- State-passing semantics of the API: `register` consumes `self` and
returns the updated registry; `call` borrows `&self`, so the registry handed
back to the caller is the one it received. -/
def applyOp (sc : Shortcodes) : Op → Shortcodes × Option CallOutcome
  | .register d f => (sc.register d f, none)
  | .call args => (sc, sc.call args)

/-- Model of Rust `str::to_lowercase` as used on the method names:
character-wise lowering. -/
def to_lowercase (s : String) : String := String.mk (s.data.map Char.toLower)

/-- The `"get"` arm of the `fetch_js` match in `fetch_shortcode_js`:
`const response = await fetch("<url>");`. -/
def fetch_js_get (url : String) : String :=
  "const response = await fetch(\"" ++ url ++ "\");"

/-- The `"post"` arm of the `fetch_js` match in `fetch_shortcode_js`: a
`Request` with a JSON content-type header and the given body. -/
def fetch_js_post (url json_body : String) : String :=
  "\nconst request = new Request(\"" ++ url ++ "\", \x7b\n    headers: (() => \x7b\n        const headers = new Headers();\n        headers.append(\"Content-Type\", \"application/json\");\n        return headers;\n    \x7d)(),\n    method: \"POST\",\n    body: JSON.stringify(" ++ json_body ++ "),\n\x7d);\nconst response = await fetch(request);"

/-- The early-return value of `fetch_shortcode_js` for a method other than
GET/POST: an HTML `<output>` element reporting the invalid method and the
url. -/
def invalid_method_output (method url : String) : String :=
  "<output style=\"background-color:#f44336;color:#fff;padding:6px;\">\nInvalid method "
    ++ method ++ " for url " ++ url
    ++ " (only GET and POST methods available)\n</output>"

/-- The `js_code` template of `fetch_shortcode_js` with the chosen
`fetch_js` fragment spliced in: the self-removing `<script>` element that
fetches the content and re-activates any scripts it carries. -/
def js_code_of (fetch_js : String) : String :=
  "<script>\n(function () \x7b\n    async function fetchShortcodeData() \x7b\n        try \x7b\n            "
    ++ fetch_js
    ++ "\n            if (!response.ok) \x7b\n                throw new Error(`HTTP error! Status: $\x7bresponse.status\x7d`);\n            \x7d\n            return await response.text();\n        \x7d catch (error) \x7b\n            console.error(\"Fetch failed:\", error);\n            return \"\";\n        \x7d\n    \x7d\n    function reScript(helper) \x7b\n        for (const node of helper.childNodes) \x7b\n            if (node.hasChildNodes()) \x7b\n                reScript(node);\n            \x7d\n            if (node.nodeName === \x27SCRIPT\x27) \x7b\n                const script = document.createElement(\x27script\x27);\n                script.type = \"text/javascript\";\n                script.textContent = node.textContent;\n                node.replaceWith(script);\n            \x7d\n        \x7d\n    \x7d\n    (async () => \x7b\n        const currentScript = document.currentScript;\n        const content = await fetchShortcodeData();\n        // console.log(content);\n        const helper = document.createElement(\x27div\x27);\n        helper.id = \x27helper\x27;\n        helper.innerHTML = content;\n        reScript(helper);\n        currentScript.after(...helper.childNodes);\n        currentScript.remove();\n    \x7d)();\n\x7d)();\n</script>"

/-- The `<noscript>` fallback appended for GET requests with an `alt`
text. -/
def noscript_fallback (url alt : String) : String :=
  "<noscript><a href=\"" ++ url ++ "\">" ++ alt ++ "</a></noscript>"

/-- Model of `fetch_shortcode_js` (src/lib.rs 152-230).  `method` defaults to
`"GET"`, `json_body` to `"\x7b\x7d"`; the match on the lowercased method
either picks a `fetch_js` fragment or early-returns the `<output>` error
element; on the non-error path the `js_code` template is built and, when the
method is GET and `alt` is present, the `<noscript>` fallback is
appended. -/
def fetch_shortcode_js (url : String) (method : Option String)
    (json_body : Option String) (alt : Option String) : String :=
  let method := method.getD "GET"
  let json_body := json_body.getD "\x7b\x7d"
  let fetch_js :=
    if to_lowercase method = "get" then some (fetch_js_get url)
    else if to_lowercase method = "post" then some (fetch_js_post url json_body)
    else none
  match fetch_js with
  | none => invalid_method_output method url
  | some fetch_js =>
      let js_code := js_code_of fetch_js
      if to_lowercase method = "get" && alt.isSome then
        js_code ++ noscript_fallback url (alt.getD "")
      else
        js_code

/-- Modelled from the spec: the Argument Canonicalizer (spec 4.1) has no
implementation under src/.  Per the spec's algorithm, for every key except
`rotate` the value is unquoted, the key is appended to a token list, and the
unquoted value is appended too when it is non-empty. -/
def canonTokens (args : List (String × String)) : List String :=
  args.flatMap fun kv =>
    if kv.fst = "rotate" then []
    else
      let v := trimQuotes kv.snd
      if v = "" then [kv.fst] else [kv.fst, v]

/-- Modelled from the spec: the canonical string of spec 4.1 — the token bag
sorted lexicographically and joined with the separator `-`. -/
def canonicalize (args : List (String × String)) : String :=
  String.intercalate "-" (List.insertionSort (· ≤ ·) (canonTokens args))

/-- Modelled from the spec: the Cache Key Hasher (spec 4.2) has no
implementation under src/; the spec only requires a deterministic, pure,
seed-free 128-bit-class hash, modelled here as an FNV-style fold reduced
modulo `2 ^ 128`. -/
def hash128 (s : String) : Nat :=
  s.data.foldl
    (fun h c => (h * 309485009821345068724781371 + c.toNat) % (2 ^ 128))
    144066263297769815596495629667062367629

/-- Modelled from the spec: the fixed-length hex rendering of the
fingerprint (spec 4.2), zero-padded to 32 hex digits. -/
def toHex32 (n : Nat) : String :=
  let ds := Nat.toDigits 16 n
  String.mk (List.replicate (32 - ds.length) '0' ++ ds)

/-- Modelled from the spec: the Cache Key derivation of spec 3 — hash of the
canonical string, rendered as a fixed-length hex fingerprint. -/
def cacheKey (args : List (String × String)) : String :=
  toHex32 (hash128 (canonicalize args))

/-- Substring containment: `pat` occurs contiguously inside `hay`. -/
def strContains (hay pat : String) : Prop := pat.data <:+: hay.data

instance (hay pat : String) : Decidable (strContains hay pat) :=
  List.decidableInfix _ _

/-! ### Association-list map lemmas -/

theorem mapLookup_insertAL_self {α : Type} (m : List (String × α))
    (k : String) (v : α) : mapLookup (insertAL m k v) k = some v := by
  induction m with
  | nil => simp [insertAL, mapLookup]
  | cons hd tl ih =>
    obtain ⟨k₀, w⟩ := hd
    by_cases hk : k₀ = k
    · simp [insertAL, hk, mapLookup]
    · simp [insertAL, hk, mapLookup, ih]

theorem mapLookup_insertAL_other {α : Type} (m : List (String × α))
    (k k' : String) (v : α) (h : k' ≠ k) :
    mapLookup (insertAL m k v) k' = mapLookup m k' := by
  induction m with
  | nil => simp [insertAL, mapLookup, Ne.symm h]
  | cons hd tl ih =>
    obtain ⟨k₀, w⟩ := hd
    by_cases hk : k₀ = k
    · simp [insertAL, hk, mapLookup, Ne.symm h]
    · simp [insertAL, hk, mapLookup, ih]

/-! ### Trimming lemmas -/

theorem getLast?_trimMatchesBoth (p : Char → Bool) (l : List Char) {c : Char}
    (h : (trimMatchesBoth p l).getLast? = some c) : p c = false := by
  unfold trimMatchesBoth at h
  rw [List.getLast?_reverse] at h
  have hd := List.head?_dropWhile_not p (l.dropWhile p).reverse
  rw [h] at hd
  exact hd

theorem head?_trimMatchesBoth (p : Char → Bool) (l : List Char) {c : Char}
    (h : (trimMatchesBoth p l).head? = some c) : p c = false := by
  unfold trimMatchesBoth at h
  rw [List.head?_reverse] at h
  obtain ⟨t, ht⟩ := List.dropWhile_suffix (l := (l.dropWhile p).reverse) p
  have hm : ((l.dropWhile p).reverse).getLast? = some c := by
    rw [← ht, List.getLast?_append, h]
    rfl
  rw [List.getLast?_reverse] at hm
  have hd := List.head?_dropWhile_not p l
  rw [hm] at hd
  exact hd

/-! ### Substring-separator lemmas -/

theorem pre_of_pre_append_sep {α : Type} {c : α} :
    ∀ (n x y : List α), c ∉ n → n <+: x ++ c :: y → n <+: x := by
  intro n
  induction n with
  | nil => intro x y _ _; exact ⟨x, rfl⟩
  | cons a n ih =>
    intro x y hc hp
    match x with
    | [] =>
        rw [List.nil_append, List.cons_prefix_cons] at hp
        obtain ⟨rfl, -⟩ := hp
        exact absurd (List.mem_cons_self _ _) hc
    | b :: x' =>
        rw [List.cons_append, List.cons_prefix_cons] at hp
        obtain ⟨rfl, hp'⟩ := hp
        have hc' : c ∉ n := fun hmem => hc (List.mem_cons_of_mem _ hmem)
        exact List.cons_prefix_cons.mpr ⟨rfl, ih x' y hc' hp'⟩

theorem infix_split_at_sep {α : Type} {c : α} :
    ∀ (x n y : List α), c ∉ n → n <:+: x ++ c :: y → n <:+: x ∨ n <:+: y := by
  intro x
  induction x with
  | nil =>
    intro n y hc h
    rw [List.nil_append] at h
    rcases List.infix_cons_iff.mp h with hp | hi
    · have hnil : n <+: ([] : List α) :=
        pre_of_pre_append_sep n [] y hc (by simpa using hp)
      rw [List.prefix_nil] at hnil
      subst hnil
      exact Or.inr ⟨[], y, rfl⟩
    · exact Or.inr hi
  | cons b x' ih =>
    intro n y hc h
    rw [List.cons_append] at h
    rcases List.infix_cons_iff.mp h with hp | hi
    · have hpre : n <+: b :: x' :=
        pre_of_pre_append_sep n (b :: x') y hc (by simpa using hp)
      exact Or.inl hpre.isInfix
    · rcases ih n y hc hi with h1 | h2
      · exact Or.inl (List.infix_cons h1)
      · exact Or.inr h2

/-! ### Canonicalizer lemmas -/

theorem canonTokens_perm {a1 a2 : List (String × String)}
    (h : a1.Perm a2) : (canonTokens a1).Perm (canonTokens a2) :=
  List.Perm.flatMap_right _ h

theorem canonicalize_perm {a1 a2 : List (String × String)}
    (h : a1.Perm a2) : canonicalize a1 = canonicalize a2 := by
  unfold canonicalize
  congr 1
  have hp :=
    (((List.perm_insertionSort (· ≤ ·) (canonTokens a1)).trans
      (canonTokens_perm h)).trans
        (List.perm_insertionSort (· ≤ ·) (canonTokens a2)).symm)
  exact List.eq_of_perm_of_sorted hp
    (List.sorted_insertionSort _ _) (List.sorted_insertionSort _ _)

/-! ### Concrete inputs used by witnesses and counterexamples -/

/-- A registered probe function returning a fixed fragment. -/
def probeFn : ShortcodeFn := fun _ => "fragment"

/-- A registry holding only the probe function under the name `probe`. -/
def probeRegistry : Shortcodes := Shortcodes.new.register "probe" probeFn

/-- Arguments selecting the probe shortcode with `rotate=0`. -/
def probeArgs : List (String × Value) :=
  [("display", Value.vStr "probe"), ("rotate", Value.vStr "0")]

/-- A registered function used by the non-string-argument scenarios. -/
def c6Fn : ShortcodeFn := fun _ => "ok-fragment"

/-- A registry holding only `c6Fn` under the name `f`. -/
def c6Registry : Shortcodes := Shortcodes.new.register "f" c6Fn

/-- Arguments whose `limit` value is a number, not a string. -/
def c6Args : List (String × Value) :=
  [("display", Value.vStr "f"), ("limit", Value.vNum 4)]

/-- A demo shortcode function. -/
def demoFn : ShortcodeFn := fun _ => "demo"

/-! ### Claims -/

/-- C1, counterexample: with the probe function registered and the identical
argument map (`display="probe"`, `rotate=0`) dispatched twice, the registered
function is invoked twice, not once — `Shortcodes::call` has no cache and the
second dispatch invokes the function again. -/
theorem claim_C1_counterexample :
    dispatchTwiceInvocations probeRegistry probeArgs = some 2 ∧
    dispatchTwiceInvocations probeRegistry probeArgs ≠ some 1 := by
  decide

/-- C1, amended: `Shortcodes::call` consults no cache: every dispatch whose
`display` value resolves to a registered function invokes that function
exactly once, so dispatching the same arguments twice (with any `rotate`)
invokes it twice. -/
theorem claim_C1_no_cache_double_invoke (sc : Shortcodes)
    (args : List (String × Value)) (s : String) (f : ShortcodeFn)
    (h1 : mapLookup args "display" = some (.vStr s))
    (h2 : mapLookup sc.functions (trimQuotes s) = some f) :
    (sc.call args).map CallOutcome.invocations = some 1 ∧
    dispatchTwiceInvocations sc args = some 2 := by
  have hc : sc.call args = some ⟨.ok (.vStr (f args)), [], 1⟩ := by
    unfold Shortcodes.call
    rw [h1]
    simp [Value.as_str, h2]
  refine ⟨?_, ?_⟩
  · rw [hc]; rfl
  · unfold dispatchTwiceInvocations
    rw [hc]
    rfl

/-- C1, witness: the amended statement instantiated at the probe registry. -/
theorem claim_C1_witness :
    (probeRegistry.call probeArgs).map CallOutcome.invocations = some 1 ∧
    dispatchTwiceInvocations probeRegistry probeArgs = some 2 :=
  claim_C1_no_cache_double_invoke probeRegistry probeArgs "probe" probeFn
    rfl rfl

/-- C2: the Cache Key derivation (modelled from the spec, absent from src/)
is a pure function of the argument multiset: any two insertion orders of the
same Argument Set canonicalize and hash to the same Cache Key. -/
theorem claim_C2_cache_key_deterministic (a1 a2 : List (String × String))
    (h : a1.Perm a2) : cacheKey a1 = cacheKey a2 := by
  unfold cacheKey
  rw [canonicalize_perm h]

/-- C2, witness: two insertion orders of `{a: "1", b: "2"}` give the same
key. -/
theorem claim_C2_witness :
    List.Perm [("a", "1"), ("b", "2")] [("b", "2"), ("a", "1")] ∧
    cacheKey [("a", "1"), ("b", "2")] = cacheKey [("b", "2"), ("a", "1")] :=
  ⟨by decide, claim_C2_cache_key_deterministic _ _ (by decide)⟩

/-- C3: an argument map with no `display` key makes `call` return the
sentinel fragment `Missing display attribute` as a successful `Ok` value,
creating no file and invoking no function. -/
theorem claim_C3_missing_display (sc : Shortcodes)
    (args : List (String × Value))
    (h : mapLookup args "display" = none) :
    sc.call args = some ⟨.ok (.vStr "Missing display attribute"), [], 0⟩ := by
  unfold Shortcodes.call
  rw [h]

/-- C3, witness: the statement at a concrete display-free argument map. -/
theorem claim_C3_witness :
    Shortcodes.new.call [("foo", Value.vStr "1")] =
      some ⟨.ok (.vStr "Missing display attribute"), [], 0⟩ :=
  claim_C3_missing_display Shortcodes.new [("foo", Value.vStr "1")] rfl

/-- C4: when the unquoted `display` value names no registered function,
`call` returns exactly the fragment
`Unknown shortcode display name: <name>` as a successful `Ok` value and
creates no file. -/
theorem claim_C4_unknown_display (sc : Shortcodes)
    (args : List (String × Value)) (s : String)
    (h1 : mapLookup args "display" = some (.vStr s))
    (h2 : mapLookup sc.functions (trimQuotes s) = none) :
    sc.call args =
      some ⟨.ok (.vStr ("Unknown shortcode display name: " ++ trimQuotes s)),
        [], 0⟩ := by
  unfold Shortcodes.call
  rw [h1]
  simp [Value.as_str, h2]

/-- C4, witness: dispatching `display="nope"` against an empty registry. -/
theorem claim_C4_witness :
    Shortcodes.new.call [("display", Value.vStr "nope")] =
      some ⟨.ok (.vStr ("Unknown shortcode display name: "
        ++ trimQuotes "nope")), [], 0⟩ :=
  claim_C4_unknown_display Shortcodes.new [("display", Value.vStr "nope")]
    "nope" rfl rfl

/-- C5: registering an already-registered display name replaces the previous
function (last write wins) and leaves every other registration's lookup
unchanged. -/
theorem claim_C5_register_last_write_wins (sc : Shortcodes) (name : String)
    (f g : ShortcodeFn) :
    mapLookup ((sc.register name f).register name g).functions name = some g
    ∧ ∀ n, n ≠ name →
        mapLookup ((sc.register name f).register name g).functions n =
          mapLookup sc.functions n := by
  refine ⟨mapLookup_insertAL_self _ _ _, ?_⟩
  intro n hn
  show mapLookup (insertAL (insertAL sc.functions name f) name g) n = _
  rw [mapLookup_insertAL_other _ _ _ _ hn, mapLookup_insertAL_other _ _ _ _ hn]

/-- C5, witness: re-registering `a` dispatches to the second function and
leaves the lookup of `b` unchanged. -/
theorem claim_C5_witness :
    mapLookup ((Shortcodes.new.register "a" demoFn).register "a"
      probeFn).functions "a" = some probeFn
    ∧ mapLookup ((Shortcodes.new.register "a" demoFn).register "a"
        probeFn).functions "b" = mapLookup Shortcodes.new.functions "b" :=
  ⟨(claim_C5_register_last_write_wins Shortcodes.new "a" demoFn probeFn).1,
   (claim_C5_register_last_write_wins Shortcodes.new "a" demoFn probeFn).2
     "b" (by decide)⟩

/-- C6, counterexample: an argument map containing the non-string value
`limit = 4` is dispatched successfully — `call` returns `Ok` with the
registered function's fragment, not an `InvalidArgument` (or any other)
error. -/
theorem claim_C6_counterexample :
    (c6Registry.call c6Args).map CallOutcome.result =
      some (.ok (.vStr "ok-fragment")) := rfl

/-- C6, amended: a non-string value under a key other than `display` causes
no error — dispatch proceeds normally and hands the full argument map to the
registered function; only a non-string `display` value makes `call` fail,
and it fails as the `as_str().unwrap()` panic, not as an `InvalidArgument`
error. -/
theorem claim_C6_nonstring_values (sc : Shortcodes)
    (args : List (String × Value)) :
    (∀ v, mapLookup args "display" = some v → v.as_str = none →
        sc.call args = none)
    ∧ ∀ s f, mapLookup args "display" = some (.vStr s) →
        mapLookup sc.functions (trimQuotes s) = some f →
        sc.call args = some ⟨.ok (.vStr (f args)), [], 1⟩ := by
  constructor
  · intro v h1 h2
    unfold Shortcodes.call
    rw [h1]
    simp [h2]
  · intro s f h1 h2
    unfold Shortcodes.call
    rw [h1]
    simp [Value.as_str, h2]

/-- C6, witness: a numeric `display` value panics (`none`), while a numeric
`limit` value dispatches successfully. -/
theorem claim_C6_witness :
    Shortcodes.new.call [("display", Value.vNum 7)] = none
    ∧ c6Registry.call c6Args = some ⟨.ok (.vStr (c6Fn c6Args)), [], 1⟩ :=
  ⟨(claim_C6_nonstring_values Shortcodes.new
      [("display", Value.vNum 7)]).1 (Value.vNum 7) rfl rfl,
   (claim_C6_nonstring_values c6Registry c6Args).2 "f" c6Fn rfl rfl⟩

/-- C7, counterexample: an input wrapped in two layers of single quotes loses
both layers — `trim_matches` strips every leading/trailing quote, so no
quote layer remains. -/
theorem claim_C7_counterexample :
    trimQuotes "\x27\x27abc\x27\x27" = "abc" ∧
    trimQuotes "\x27\x27abc\x27\x27" ≠ "\x27abc\x27" := by
  decide

/-- C7, amended: unquoting strips every leading and trailing quote
character, not exactly one layer: the unquoted value never starts or ends
with a quote character. -/
theorem claim_C7_trim_strips_all (s : String) (c : Char) :
    ((trimQuotes s).data.head? = some c → isQuoteChar c = false)
    ∧ ((trimQuotes s).data.getLast? = some c → isQuoteChar c = false) :=
  ⟨fun h => head?_trimMatchesBoth isQuoteChar s.data h,
   fun h => getLast?_trimMatchesBoth isQuoteChar s.data h⟩

/-- C7, witness: the amended statement at the doubly quoted input. -/
theorem claim_C7_witness :
    isQuoteChar 'a' = false ∧ isQuoteChar 'c' = false :=
  ⟨(claim_C7_trim_strips_all "\x27\x27abc\x27\x27" 'a').1 (by decide),
   (claim_C7_trim_strips_all "\x27\x27abc\x27\x27" 'c').2 (by decide)⟩

/-- C8: a dispatch through `call` hands back the registry it received, and
the only operation that changes the `functions` map is `register`. -/
theorem claim_C8_registry_immutable :
    (∀ (sc : Shortcodes) (args : List (String × Value)),
        (applyOp sc (Op.call args)).fst = sc)
    ∧ ∀ (sc : Shortcodes) (op : Op),
        (applyOp sc op).fst.functions ≠ sc.functions →
          ∃ d f, op = Op.register d f := by
  constructor
  · intro sc args
    rfl
  · intro sc op h
    cases op with
    | register d f => exact ⟨d, f, rfl⟩
    | call args => exact absurd rfl h

/-- C8, witness: a concrete dispatch preserves the registry, and a concrete
registration (the operation that does change it) is reported as such. -/
theorem claim_C8_witness :
    (applyOp probeRegistry (Op.call probeArgs)).fst = probeRegistry
    ∧ ∃ d f, Op.register "a" demoFn = Op.register d f :=
  ⟨claim_C8_registry_immutable.1 probeRegistry probeArgs,
   claim_C8_registry_immutable.2 Shortcodes.new (Op.register "a" demoFn)
     (by simp [applyOp, Shortcodes.register, Shortcodes.new, insertAL])⟩

/-- C9: whenever the `display` value — if present — is a string,
`Shortcodes::call` neither panics nor returns `Err`: it returns `Ok` holding
a string value on every path. -/
theorem claim_C9_call_total_ok (sc : Shortcodes)
    (args : List (String × Value))
    (h : mapLookup args "display" = none ∨
        ∃ s, mapLookup args "display" = some (.vStr s)) :
    ∃ o str, sc.call args = some o ∧ o.result = .ok (.vStr str) := by
  rcases h with h | ⟨s, h⟩
  · exact ⟨_, "Missing display attribute",
      by unfold Shortcodes.call; rw [h], rfl⟩
  · rcases hf : mapLookup sc.functions (trimQuotes s) with - | f
    · refine ⟨⟨.ok (.vStr ("Unknown shortcode display name: "
        ++ trimQuotes s)), [], 0⟩,
        "Unknown shortcode display name: " ++ trimQuotes s, ?_, rfl⟩
      unfold Shortcodes.call
      rw [h]
      simp [Value.as_str, hf]
    · refine ⟨⟨.ok (.vStr (f args)), [], 1⟩, f args, ?_, rfl⟩
      unfold Shortcodes.call
      rw [h]
      simp [Value.as_str, hf]

/-- C9, witness: the statement at a concrete map whose `display` is a string
naming no function. -/
theorem claim_C9_witness :
    ∃ o str, Shortcodes.new.call [("display", Value.vStr "x")] = some o ∧
      o.result = .ok (.vStr str) :=
  claim_C9_call_total_ok Shortcodes.new [("display", Value.vStr "x")]
    (Or.inr ⟨"x", rfl⟩)

set_option maxRecDepth 40000 in
/-- C10, counterexample: a url that itself carries a `<script>` element makes
the invalid-method `<output>` fragment contain `<script>` — the claim's
script-freeness fails without an assumption on the url. -/
theorem claim_C10_counterexample :
    strContains (fetch_shortcode_js "x<script>y" (some "put") none none)
      "<script>" := by
  decide

set_option maxRecDepth 40000 in
/-- C10, amended: for every method whose lowercase form is neither `get` nor
`post`, `fetch_shortcode_js` returns the `<output>` error element, which
contains the method and the url, contains no `<script>` element provided the
method and url themselves contain none, and is independent of `alt` (no
`<noscript>` fallback is appended on this path). -/
theorem claim_C10_invalid_method (url method : String)
    (jb alt : Option String)
    (h1 : to_lowercase method ≠ "get") (h2 : to_lowercase method ≠ "post")
    (hu : ¬ strContains url "<script>")
    (hm : ¬ strContains method "<script>") :
    fetch_shortcode_js url (some method) jb alt =
      invalid_method_output method url
    ∧ strContains (fetch_shortcode_js url (some method) jb alt) method
    ∧ strContains (fetch_shortcode_js url (some method) jb alt) url
    ∧ ("<output" : String).data <+:
        (fetch_shortcode_js url (some method) jb alt).data
    ∧ ¬ strContains (fetch_shortcode_js url (some method) jb alt) "<script>"
    ∧ fetch_shortcode_js url (some method) jb alt =
        fetch_shortcode_js url (some method) jb none := by
  have heq : ∀ a : Option String,
      fetch_shortcode_js url (some method) jb a =
        invalid_method_output method url := by
    intro a
    simp [fetch_shortcode_js, h1, h2]
  have hdata0 : (invalid_method_output method url).data =
      ("<output style=\"background-color:#f44336;color:#fff;padding:6px;\">\nInvalid method " : String).data
        ++ (method.data ++ ((" for url " : String).data
        ++ (url.data
        ++ (" (only GET and POST methods available)\n</output>" : String).data))) := by
    simp [invalid_method_output]
  have hdata1 : (invalid_method_output method url).data =
      ("<output style=\"background-color:#f44336;color:#fff;padding:6px;\">\nInvalid method" : String).data
        ++ ' ' :: (method.data
        ++ ' ' :: (("for url" : String).data
        ++ ' ' :: (url.data
        ++ ' ' :: ("(only GET and POST methods available)\n</output>" : String).data))) := by
    rw [hdata0]
    have e1 : ("<output style=\"background-color:#f44336;color:#fff;padding:6px;\">\nInvalid method " : String).data =
        ("<output style=\"background-color:#f44336;color:#fff;padding:6px;\">\nInvalid method" : String).data
          ++ [' '] := by decide
    have e2 : (" for url " : String).data =
        ' ' :: (("for url" : String).data ++ [' ']) := by decide
    have e3 : (" (only GET and POST methods available)\n</output>" : String).data =
        ' ' :: ("(only GET and POST methods available)\n</output>" : String).data := by
      decide
    rw [e1, e2, e3]
    simp
  have hcm : strContains (invalid_method_output method url) method := by
    unfold strContains
    rw [hdata0]
    exact ⟨("<output style=\"background-color:#f44336;color:#fff;padding:6px;\">\nInvalid method " : String).data,
      (" for url " : String).data ++ (url.data
        ++ (" (only GET and POST methods available)\n</output>" : String).data),
      by simp⟩
  have hcu : strContains (invalid_method_output method url) url := by
    unfold strContains
    rw [hdata0]
    exact ⟨("<output style=\"background-color:#f44336;color:#fff;padding:6px;\">\nInvalid method " : String).data
        ++ (method.data ++ (" for url " : String).data),
      (" (only GET and POST methods available)\n</output>" : String).data,
      by simp⟩
  have hpre : ("<output" : String).data <+:
      (invalid_method_output method url).data := by
    rw [hdata0]
    have h0 : ("<output" : String).data <+:
        ("<output style=\"background-color:#f44336;color:#fff;padding:6px;\">\nInvalid method " : String).data := by
      decide
    exact h0.trans ⟨method.data ++ ((" for url " : String).data
      ++ (url.data
      ++ (" (only GET and POST methods available)\n</output>" : String).data)),
      rfl⟩
  have hnos : ¬ strContains (invalid_method_output method url) "<script>" := by
    intro hinf
    unfold strContains at hinf
    rw [hdata1] at hinf
    have hsp : (' ' : Char) ∉ ("<script>" : String).data := by decide
    rcases infix_split_at_sep _ _ _ hsp hinf with hx | hrest
    · exact absurd hx (by decide)
    · rcases infix_split_at_sep _ _ _ hsp hrest with hx | hrest2
      · exact hm hx
      · rcases infix_split_at_sep _ _ _ hsp hrest2 with hx | hrest3
        · exact absurd hx (by decide)
        · rcases infix_split_at_sep _ _ _ hsp hrest3 with hx | hx
          · exact hu hx
          · exact absurd hx (by decide)
  refine ⟨heq alt, ?_, ?_, ?_, ?_, ?_⟩
  · rw [heq alt]
    exact hcm
  · rw [heq alt]
    exact hcu
  · rw [heq alt]
    exact hpre
  · rw [heq alt]
    exact hnos
  · rw [heq alt, heq none]

set_option maxRecDepth 40000 in
/-- C10, witness: the amended statement at a concrete PUT request. -/
theorem claim_C10_witness :
    to_lowercase "put" ≠ "get"
    ∧ fetch_shortcode_js "http://e/x" (some "put") none (some "alt-link") =
        invalid_method_output "put" "http://e/x"
    ∧ ¬ strContains
        (fetch_shortcode_js "http://e/x" (some "put") none (some "alt-link"))
        "<script>"
    ∧ fetch_shortcode_js "http://e/x" (some "put") none (some "alt-link") =
        fetch_shortcode_js "http://e/x" (some "put") none none :=
  ⟨by decide,
   (claim_C10_invalid_method "http://e/x" "put" none (some "alt-link")
      (by decide) (by decide) (by decide) (by decide)).1,
   (claim_C10_invalid_method "http://e/x" "put" none (some "alt-link")
      (by decide) (by decide) (by decide) (by decide)).2.2.2.2.1,
   (claim_C10_invalid_method "http://e/x" "put" none (some "alt-link")
      (by decide) (by decide) (by decide) (by decide)).2.2.2.2.2⟩

end TeraShortcodes
